import Mathlib

/-
  Verification of the batch-orchestration core of the embedding download
  pipeline (download.py, gee_embedding_download.py, validate.py).

  The embedding is shallow: remote calls, HTTP fetches and filesystem
  operations are represented by oracle parameters and by an explicit event
  trace, while all control flow (retry loop, existence checks, resume
  logic, validator sweep, zone provisioning) is translated directly from
  the source.
-/

abbrev FPath := String

/-- Run configuration, the subset of config.json consumed by the code
under verification (download.py lines 42-51). -/
structure Cfg where
  country : String
  year : String
  res : String
  chunk : String
  outputDir : String
  maxRetries : ℕ
  baseWait : ℚ

/-- UTM zone from a centroid longitude, download.py line 95:
ee.Number(lon).add(180).divide(6).floor().add(1). -/
def utm_zone (lon : ℚ) : ℤ := ⌊(lon + 180) / 6⌋ + 1

/-- Per-tile EPSG code from the centroid, download.py lines 95-98:
32700 + zone in the southern hemisphere (lat < 0), else 32600 + zone. -/
def epsg_code (lon lat : ℚ) : ℤ :=
  if lat < 0 then 32700 + utm_zone lon else 32600 + utm_zone lon

/-- Modelled from the spec: the pyproj call
CRS.from_dict(proj=utm, zone, south).to_authority() used at
gee_embedding_download.py line 101 resolves a UTM zone and a
southern-hemisphere flag to EPSG 32700 + zone (south) or 32600 + zone
(north); pyproj itself is an external collaborator, the formula is the
one stated in the spec (section 4.1). -/
def epsg_of_zone (zone : ℤ) (south : Bool) : ℤ :=
  if south then 32700 + zone else 32600 + zone

/-- Observable side effects of one worker invocation. -/
inductive Ev where
  | getUrl : Ev
  | httpGet : Ev
  | writeFile : FPath → Ev
  | tagBands : FPath → Ev
  | writeManifest : FPath → Ev
  | warn : ℕ → ℕ → Ev
  | sleepFor : ℚ → Ev
  | errLog : Ev
  deriving DecidableEq

def isFetch : Ev → Bool
  | Ev.getUrl => true
  | Ev.httpGet => true
  | _ => false

def isGetUrl : Ev → Bool
  | Ev.getUrl => true
  | _ => false

def isWrite : Ev → Bool
  | Ev.writeFile _ => true
  | Ev.writeManifest _ => true
  | _ => false

def isWriteFile : Ev → Bool
  | Ev.writeFile _ => true
  | _ => false

def isWarn : Ev → Bool
  | Ev.warn _ _ => true
  | _ => false

def isSleep : Ev → Bool
  | Ev.sleepFor _ => true
  | _ => false

def isManifest : Ev → Bool
  | Ev.writeManifest _ => true
  | _ => false

def isWriteOrTag : Ev → Bool
  | Ev.writeFile _ => true
  | Ev.tagBands _ => true
  | _ => false

/-- Success or failure of each fallible step of one retry-loop attempt
(download.py lines 116-136): the getDownloadURL call, the HTTP GET with
raise_for_status, the rasterio band-description tagging, and the
manifest write. -/
structure AttemptSpec where
  urlOk : Bool
  httpOk : Bool
  tagOk : Bool
  manifestOk : Bool
  deriving DecidableEq

/-- One iteration of the retry loop body, download.py lines 116-137: get
the download URL, fetch the bytes, write the file, tag band
descriptions, and, for tile index 0, write bands_used.txt. The first
failing step aborts the attempt; every step that ran is recorded in the
trace. -/
def attemptRun (i : ℕ) (outp dir : FPath) (a : AttemptSpec) : Bool × List Ev :=
  if !a.urlOk then (false, [Ev.getUrl])
  else if !a.httpOk then (false, [Ev.getUrl, Ev.httpGet])
  else if !a.tagOk then
    (false, [Ev.getUrl, Ev.httpGet, Ev.writeFile outp, Ev.tagBands outp])
  else if i = 0 then
    if !a.manifestOk then
      (false, [Ev.getUrl, Ev.httpGet, Ev.writeFile outp, Ev.tagBands outp,
               Ev.writeManifest dir])
    else
      (true, [Ev.getUrl, Ev.httpGet, Ev.writeFile outp, Ev.tagBands outp,
              Ev.writeManifest dir])
  else (true, [Ev.getUrl, Ev.httpGet, Ev.writeFile outp, Ev.tagBands outp])

/-- The retry loop, download.py lines 115-143: for attempt in
range(MAX_RETRIES), run the attempt; on success return the output path;
on failure log a warning with the 1-based attempt number, sleep
BASE_WAIT * 2 ^ attempt, and continue; after the loop log an error and
return None. The first argument of the recursion is the current attempt
index, the second the number of attempts left. -/
def retryLoop (maxR : ℕ) (baseW : ℚ) (i : ℕ) (outp dir : FPath)
    (att : ℕ → AttemptSpec) : ℕ → ℕ → Option FPath × List Ev
  | _, 0 => (none, [Ev.errLog])
  | start, n + 1 =>
    let a := attemptRun i outp dir (att start)
    if a.1 then (some outp, a.2)
    else
      let rest := retryLoop maxR baseW i outp dir att (start + 1) n
      (rest.1, a.2 ++ Ev.warn (start + 1) maxR ::
        Ev.sleepFor (baseW * 2 ^ start) :: rest.2)

/-- Output directory for a chunk, download.py line 100:
os.path.join(OUTPUT_DIR, COUNTRY_NAME, YEAR, chunk_name). -/
def out_dir (c : Cfg) : FPath :=
  c.outputDir ++ "/" ++ c.country ++ "/" ++ c.year ++ "/" ++ c.chunk

/-- Artifact filename, download.py line 102. -/
def artifact_name (c : Cfg) (epsg : ℤ) (i : ℕ) : String :=
  "google_embed_" ++ c.country ++ "_" ++ c.year ++ "_" ++ c.res ++ "m_" ++
    toString epsg ++ "_" ++ c.chunk ++ "_" ++ toString i ++ ".tif"

/-- Full artifact path, download.py line 103. -/
def artifact_path (c : Cfg) (epsg : ℤ) (i : ℕ) : FPath :=
  out_dir c ++ "/" ++ artifact_name c epsg i

/-- Body of check_and_download after the centroid query succeeded,
download.py lines 100-143: existence check first (line 105, returns
None), then the composite-definition request guarded by try/except
(lines 108-113, returns None on failure with an error log), then the
retry loop. exists_ tells whether the deterministic output path already
exists; imgOk whether get_embedding_image succeeds. -/
def worker_body (c : Cfg) (lon lat : ℚ) (exists_ : Bool) (imgOk : Bool)
    (att : ℕ → AttemptSpec) (i : ℕ) : Option FPath × List Ev :=
  let epsg := epsg_code lon lat
  let dir := out_dir c
  let outp := artifact_path c epsg i
  if exists_ then (none, [])
  else if !imgOk then (none, [Ev.errLog])
  else retryLoop c.maxRetries c.baseWait i outp dir att 0 c.maxRetries

/-- check_and_download, download.py lines 88-143. The centroid /
EPSG-resolution step (lines 90-98, an ee getInfo round trip) sits
outside every try block: its failure propagates out of the function,
which the Except layer records. Everything after it is worker_body. -/
def check_and_download (c : Cfg) (cent : Except String (ℚ × ℚ))
    (exists_ : Bool) (imgOk : Bool) (att : ℕ → AttemptSpec) (i : ℕ) :
    Except String (Option FPath × List Ev) :=
  cent.map (fun p => worker_body c p.1 p.2 exists_ imgOk att i)

/-- download_images, gee_embedding_download.py lines 146-187: the
composite-definition request comes first (lines 149-153, returns None on
failure), then the existence check (lines 160-161, returns the output
path), then the same retry loop. The EPSG code is the per-zone one
passed in. -/
def download_images (c : Cfg) (epsg : ℤ) (imgOk : Bool) (exists_ : Bool)
    (idx : ℕ) (att : ℕ → AttemptSpec) : Option FPath × List Ev :=
  if !imgOk then (none, [Ev.errLog])
  else
    let dir := out_dir c
    let outp := artifact_path c epsg idx
    if exists_ then (some outp, [])
    else retryLoop c.maxRetries c.baseWait idx outp dir att 0 c.maxRetries

/-- Index-resume start index, download.py line 164:
max(existing_files) + 1 if existing_files else 0. For a nonempty list
of naturals the Python max equals a fold of max from 0. -/
def start_index (existing : List ℕ) : ℕ :=
  if existing.isEmpty then 0 else existing.foldl max 0 + 1

/-- Work-item indices for one chunk, download.py lines 166-169:
range(start_index, size). -/
def workIndices (existing : List ℕ) (size : ℕ) : List ℕ :=
  List.range' (start_index existing) (size - start_index existing)

/-- One chunk of download.py main (lines 154-184): enumerate work items
by index-resume, run each through check_and_download (centroid queries
assumed answered, per-item oracles for existence, composite definition
and attempts), collect per-item results and the concatenated trace. -/
def runChunkDl (c : Cfg) (existing : List ℕ) (size : ℕ)
    (cent : ℕ → ℚ × ℚ) (fs imgOk : ℕ → Bool)
    (att : ℕ → ℕ → AttemptSpec) : List (Option FPath) × List Ev :=
  let items := workIndices existing size
  (items.map (fun i =>
      (worker_body c (cent i).1 (cent i).2 (fs i) (imgOk i) (att i) i).1),
   items.foldr (fun i acc =>
      (worker_body c (cent i).1 (cent i).2 (fs i) (imgOk i) (att i) i).2 ++ acc) [])

/-- One (zone, chunk) pass of gee_embedding_download.py main (lines
198-207): every tile index of the zone asset is enumerated, each runs
through download_images. -/
def runChunkGee (c : Cfg) (epsg : ℤ) (size : ℕ) (fs imgOk : ℕ → Bool)
    (att : ℕ → ℕ → AttemptSpec) : List (Option FPath) × List Ev :=
  let items := List.range size
  (items.map (fun i => (download_images c epsg (imgOk i) (fs i) i (att i)).1),
   items.foldr (fun i acc =>
      (download_images c epsg (imgOk i) (fs i) i (att i)).2 ++ acc) [])

/-- succeeded = sum(r is not None for r in results), download.py line
183 and gee_embedding_download.py line 206. -/
def succeededCount (rs : List (Option FPath)) : ℕ :=
  (rs.filter (fun r => r.isSome)).length

/-- Sample configuration used for concrete evaluations. -/
def c0 : Cfg :=
  { country := "Hungary", year := "2024", res := "10",
    chunk := "bands_01_22", outputDir := "out",
    maxRetries := 5, baseWait := 2 }

def attAllOk : ℕ → AttemptSpec := fun _ => ⟨true, true, true, true⟩

def attHttpFail : ℕ → AttemptSpec := fun _ => ⟨true, false, true, true⟩

/-- Attempt oracle where attempt 0 succeeds up to the byte write but the
band-description tagging fails, and every later attempt fully
succeeds. -/
def attTagFailOnce : ℕ → AttemptSpec :=
  fun k => if k = 0 then ⟨true, true, false, true⟩ else ⟨true, true, true, true⟩

/-- Per-item attempt oracle where every attempt of tile 0 fails at the
HTTP GET and every attempt of any other tile succeeds. -/
def attTileZeroFails : ℕ → ℕ → AttemptSpec :=
  fun i _ => if i = 0 then ⟨true, false, true, true⟩ else ⟨true, true, true, true⟩

def exceptOk {ε α : Type} : Except ε α → Bool
  | Except.ok _ => true
  | Except.error _ => false

/-- Python str.endswith over the character lists of the two strings
(String.endsWith itself does not reduce in the kernel). -/
def ends_with (s sfx : String) : Bool := sfx.data.isSuffixOf s.data

/-- A file of a chunk output directory as the Validator sees it: its
name and, when rasterio can open it, its band count (validate.py lines
55-65); cnt = none means the open raises. -/
structure FSFile where
  name : String
  cnt : Option ℕ
  deriving DecidableEq

/-- EXPECTED_LABEL_BANDS, validate.py line 22. -/
def EXPECTED_LABEL_BANDS : ℕ := 1

/-- validate_file, validate.py lines 55-65: a file is marked for
deletion when it cannot be opened or its band count differs from the
expected count. (The os.path.exists guards are identities in this
sequential model: every listed file exists.) -/
def validate_file (f : FSFile) (expected : ℕ) : Bool :=
  match f.cnt with
  | none => true
  | some c => decide (c ≠ expected)

/-- The files one validator pass over a chunk directory deletes,
validate.py lines 71-100: the .tif files marked by validate_file
against expected band count EXPECTED_LABEL_BANDS + len(bands). -/
def deleted_files (bands : List String) (dir : List FSFile) : List FSFile :=
  (dir.filter (fun f => ends_with f.name ".tif")).filter
    (fun f => validate_file f (EXPECTED_LABEL_BANDS + bands.length))

/-- The directory contents after one validator pass: everything except
the deleted files. The pass only removes; it never creates or rewrites
a file. -/
def remaining_files (bands : List String) (dir : List FSFile) : List FSFile :=
  dir.filter (fun f =>
    !(ends_with f.name ".tif" &&
      validate_file f (EXPECTED_LABEL_BANDS + bands.length)))

/-- Observable effects of export_zone_grids. -/
inductive ZEv where
  | areaErr : ℤ → ZEv
  | exportStart : ℤ → ZEv
  | skipExisting : ℤ → ZEv
  | fatal : ZEv
  deriving DecidableEq

/-- The per-zone loop of export_zone_grids, gee_embedding_download.py
lines 90-119: for each zone, compute the intersection area (the area
oracle may fail, line 95-98: log and skip); skip zones with zero area
(lines 99-100); otherwise resolve the zone EPSG, export the grid asset
unless it already exists, and record (zone, epsg). -/
def provision (south : Bool) (area : ℤ → Except String ℚ)
    (aExists : ℤ → Bool) : List ℤ → List (ℤ × ℤ) × List ZEv
  | [] => ([], [])
  | z :: zs =>
    let rest := provision south area aExists zs
    match area z with
    | Except.error _ => (rest.1, ZEv.areaErr z :: rest.2)
    | Except.ok a =>
      if a = 0 then rest
      else
        ((z, epsg_of_zone z south) :: rest.1,
         (if aExists z then ZEv.skipExisting z else ZEv.exportStart z) :: rest.2)

/-- export_zone_grids, gee_embedding_download.py lines 85-124: run the
per-zone loop; if no zone produced info, sys.exit(1) (modelled as
Except.error) after the fatal log. -/
def export_zone_grids (south : Bool) (area : ℤ → Except String ℚ)
    (aExists : ℤ → Bool) (zones : List ℤ) :
    Except Unit (List (ℤ × ℤ)) × List ZEv :=
  let p := provision south area aExists zones
  if p.1.isEmpty then (Except.error (), p.2 ++ [ZEv.fatal])
  else (Except.ok p.1, p.2)

/-- Sample validator inputs: a chunk of two bands, so the expected band
count is 3. -/
def bands0 : List String := ["A01", "A02"]

def goodFile : FSFile := ⟨"google_embed_a_1.tif", some 3⟩

def badFile : FSFile := ⟨"google_embed_a_2.tif", some 7⟩

def unreadableFile : FSFile := ⟨"google_embed_a_3.tif", none⟩

def manifestFile : FSFile := ⟨"bands_used.txt", none⟩

def dir0 : List FSFile := [goodFile, badFile, unreadableFile, manifestFile]

/-- Sample area oracle: zone 31 fails, zone 32 has zero area, zone 33
has positive area. -/
def area0 : ℤ → Except String ℚ :=
  fun z => if z = 31 then Except.error "area failed"
    else if z = 32 then Except.ok 0 else Except.ok 5

/-- Area oracle where every query fails. -/
def areaAllFail : ℤ → Except String ℚ := fun _ => Except.error "area failed"

/-- C1: the CRS resolver maps a centroid to 32700 + zone when the
latitude is negative and to 32600 + zone otherwise, with
zone = floor((lon + 180) / 6) + 1; the zone-level variant maps (zone,
south flag) to 32700 + zone when the flag is set and 32600 + zone
otherwise; centroid (10, 52) resolves to 32632 and centroid (-122, 45)
with the southern flag false resolves to 32610. -/
theorem crs_resolver_spec :
    (∀ lon lat : ℚ, epsg_code lon lat =
        if lat < 0 then 32700 + (⌊(lon + 180) / 6⌋ + 1)
        else 32600 + (⌊(lon + 180) / 6⌋ + 1)) ∧
    (∀ (z : ℤ) (south : Bool), epsg_of_zone z south =
        if south then 32700 + z else 32600 + z) ∧
    epsg_code 10 52 = 32632 ∧
    epsg_code (-122) 45 = 32610 ∧
    epsg_of_zone (utm_zone (-122)) false = 32610 := by
  refine ⟨fun lon lat => rfl, fun z south => rfl, ?_, ?_, ?_⟩
  · have h : ⌊((10 : ℚ) + 180) / 6⌋ = 31 := by
      rw [Int.floor_eq_iff] <;> norm_num
    simp [epsg_code, utm_zone, h]
  · have h : ⌊((-122 : ℚ) + 180) / 6⌋ = 9 := by
      rw [Int.floor_eq_iff] <;> norm_num
    simp [epsg_code, utm_zone, h]
  · have h : ⌊((-122 : ℚ) + 180) / 6⌋ = 9 := by
      rw [Int.floor_eq_iff] <;> norm_num
    simp [epsg_of_zone, utm_zone, h]

/-- Every event an attempt emits is a step event: never a warning, a
sleep or the final error log. -/
theorem attemptRun_steps (i : ℕ) (outp dir : FPath) (a : AttemptSpec) :
    (attemptRun i outp dir a).2.filter isWarn = [] ∧
    (attemptRun i outp dir a).2.filter isSleep = [] ∧
    ((attemptRun i outp dir a).2.filter isGetUrl).length = 1 := by
  rcases a with ⟨u, h, t, m⟩
  rcases Nat.eq_zero_or_pos i with hi | hi
  · subst hi
    cases u <;> cases h <;> cases t <;> cases m <;>
      simp [attemptRun, isWarn, isSleep, isGetUrl]
  · have hi0 : i ≠ 0 := Nat.pos_iff_ne_zero.mp hi
    cases u <;> cases h <;> cases t <;> cases m <;>
      simp [attemptRun, isWarn, isSleep, isGetUrl, hi0]

/-- An attempt whose HTTP GET fails does not succeed. -/
theorem attemptRun_fail_of_http (i : ℕ) (outp dir : FPath) (a : AttemptSpec)
    (h : a.httpOk = false) : (attemptRun i outp dir a).1 = false := by
  rcases a with ⟨u, ht, t, m⟩
  cases u <;> simp_all [attemptRun]

/-- Shape of the retry loop trace when every attempt fails: no result,
one numbered warning and one exponentially growing sleep per attempt,
the error log last, and one download URL request per attempt. -/
theorem retryLoop_fail_spec (maxR : ℕ) (baseW : ℚ) (i : ℕ) (outp dir : FPath)
    (att : ℕ → AttemptSpec) (hfail : ∀ k, (attemptRun i outp dir (att k)).1 = false) :
    ∀ n start,
      (retryLoop maxR baseW i outp dir att start n).1 = none ∧
      (retryLoop maxR baseW i outp dir att start n).2.filter isWarn =
        (List.range' start n).map (fun k => Ev.warn (k + 1) maxR) ∧
      (retryLoop maxR baseW i outp dir att start n).2.filter isSleep =
        (List.range' start n).map (fun k => Ev.sleepFor (baseW * 2 ^ k)) ∧
      (retryLoop maxR baseW i outp dir att start n).2.getLast? = some Ev.errLog ∧
      ((retryLoop maxR baseW i outp dir att start n).2.filter isGetUrl).length = n := by
  intro n
  induction n with
  | zero =>
    intro start
    simp [retryLoop, isWarn, isSleep, isGetUrl]
  | succ n ih =>
    intro start
    have hstep := attemptRun_steps i outp dir (att start)
    have hrest := ih (start + 1)
    simp only [retryLoop, hfail start, if_false, Bool.false_eq_true]
    refine ⟨hrest.1, ?_, ?_, ?_, ?_⟩
    · simp [List.filter_append, hstep.1, isWarn, isSleep, List.range'_succ,
        hrest.2.1]
    · simp [List.filter_append, hstep.2.1, isWarn, isSleep, List.range'_succ,
        hrest.2.2.1]
    · have hne : (retryLoop maxR baseW i outp dir att (start + 1) n).2 ≠ [] := by
        intro hnil
        have h := hrest.2.2.2.1
        rw [hnil] at h
        simp at h
      rw [List.getLast?_append_of_ne_nil _ (by simp)]
      have hsplit : Ev.warn (start + 1) maxR ::
          Ev.sleepFor (baseW * 2 ^ start) ::
          (retryLoop maxR baseW i outp dir att (start + 1) n).2 =
          [Ev.warn (start + 1) maxR, Ev.sleepFor (baseW * 2 ^ start)] ++
          (retryLoop maxR baseW i outp dir att (start + 1) n).2 := rfl
      rw [hsplit, List.getLast?_append_of_ne_nil _ hne]
      exact hrest.2.2.2.1
    · simp only [List.filter_append, List.length_append, hstep.2.2]
      simp [isGetUrl, hrest.2.2.2.2]
      omega

/-- C2: a work item whose HTTP fetch step fails at every attempt is
attempted exactly MAX_RETRIES times (one download URL request per
attempt), each failed attempt k logs a warning numbered k + 1 of
MAX_RETRIES and is followed by a sleep of BASE_WAIT * 2 ^ k seconds, the
error log comes last, and the worker returns a failure result (None)
wrapped in Except.ok, so nothing is raised. -/
theorem retry_exhaustion (c : Cfg) (lon lat : ℚ) (i : ℕ)
    (att : ℕ → AttemptSpec) (hfail : ∀ k, (att k).httpOk = false) :
    check_and_download c (Except.ok (lon, lat)) false true att i =
      Except.ok (worker_body c lon lat false true att i) ∧
    (worker_body c lon lat false true att i).1 = none ∧
    (worker_body c lon lat false true att i).2.filter isWarn =
      (List.range c.maxRetries).map (fun k => Ev.warn (k + 1) c.maxRetries) ∧
    (worker_body c lon lat false true att i).2.filter isSleep =
      (List.range c.maxRetries).map (fun k => Ev.sleepFor (c.baseWait * 2 ^ k)) ∧
    (worker_body c lon lat false true att i).2.getLast? = some Ev.errLog ∧
    ((worker_body c lon lat false true att i).2.filter isGetUrl).length =
      c.maxRetries := by
  have hspec := retryLoop_fail_spec c.maxRetries c.baseWait i
    (artifact_path c (epsg_code lon lat) i) (out_dir c) att
    (fun k => attemptRun_fail_of_http i _ _ (att k) (hfail k)) c.maxRetries 0
  have hw : worker_body c lon lat false true att i =
      retryLoop c.maxRetries c.baseWait i
        (artifact_path c (epsg_code lon lat) i) (out_dir c) att 0 c.maxRetries := rfl
  rw [List.range_eq_range']
  exact ⟨rfl, hw ▸ hspec.1, hw ▸ hspec.2.1, hw ▸ hspec.2.2.1,
    hw ▸ hspec.2.2.2.1, hw ▸ hspec.2.2.2.2⟩

/-- Witness for retry_exhaustion at the sample configuration: the
always-failing HTTP oracle satisfies the hypothesis, and the worker
returns None with five warnings. -/
theorem retry_exhaustion_witness :
    (∀ k, (attHttpFail k).httpOk = false) ∧
    (worker_body c0 10 52 false true attHttpFail 1).1 = none ∧
    ((worker_body c0 10 52 false true attHttpFail 1).2.filter isWarn).length = 5 :=
  ⟨fun _ => rfl,
   (retry_exhaustion c0 10 52 1 attHttpFail (fun _ => rfl)).2.1,
   by rw [(retry_exhaustion c0 10 52 1 attHttpFail (fun _ => rfl)).2.2.1]; rfl⟩

/-- C3 counterexample: a failure of the centroid and EPSG resolution
step (download.py lines 90-98, outside every try block) propagates out
of check_and_download instead of being turned into a failure result, so
not every failure during the processing of an item is contained in the
worker. -/
theorem worker_raises_on_centroid_failure :
    check_and_download c0 (Except.error "getInfo failed") false true attAllOk 0 =
      Except.error "getInfo failed" := rfl

/-- C3 amended: every failure after the centroid and EPSG-resolution
step is contained in the worker: once the centroid query has succeeded,
check_and_download always returns Except.ok, with a None failure result
and an error log when the composite-definition request fails, whatever
the attempt oracle does; a failure of the centroid query itself (lines
90-98, outside the try blocks) propagates out of the worker. -/
theorem worker_contains_later_failures (c : Cfg) (lon lat : ℚ)
    (ex img : Bool) (att : ℕ → AttemptSpec) (i : ℕ) :
    exceptOk (check_and_download c (Except.ok (lon, lat)) ex img att i) = true ∧
    check_and_download c (Except.ok (lon, lat)) false false att i =
      Except.ok (none, [Ev.errLog]) := ⟨rfl, rfl⟩

/-- C10: the two variants return different results for a work item
whose output artifact already exists: check_and_download returns None,
the same value as a failed item, while download_images returns the
output path; the succeeded tally counts None as not succeeded and a
path as succeeded, so a pre-existing item counts as a failure in
download.py and as a success in gee_embedding_download.py. -/
theorem variants_differ_on_existing (c : Cfg) (lon lat : ℚ) (img : Bool)
    (att : ℕ → AttemptSpec) (i idx : ℕ) (epsg : ℤ)
    (rs : List (Option FPath)) (p : FPath) :
    check_and_download c (Except.ok (lon, lat)) true img att i =
      Except.ok (none, []) ∧
    download_images c epsg true true idx att =
      (some (artifact_path c epsg idx), []) ∧
    succeededCount (none :: rs) = succeededCount rs ∧
    succeededCount (some p :: rs) = succeededCount rs + 1 := by
  refine ⟨rfl, rfl, ?_, ?_⟩ <;> simp [succeededCount]

/-- Python max over a nonempty list of naturals, as a fold from 0, of
List.range (n + 1) is n. -/
theorem foldl_max_range (n : ℕ) : (List.range (n + 1)).foldl max 0 = n := by
  induction n with
  | zero => rfl
  | succ n ih =>
    rw [List.range_succ, List.foldl_append]
    simp [ih]

/-- After a run in which every tile index below size got its artifact,
the index-resume scan starts at size, so the work item list is empty. -/
theorem workIndices_full (size : ℕ) :
    workIndices (List.range size) size = [] := by
  cases size with
  | zero => rfl
  | succ n =>
    have h : start_index (List.range (n + 1)) = n + 1 := by
      have hne : (List.range (n + 1)).isEmpty = false := by
        simp [List.isEmpty_iff, List.range_succ]
      simp [start_index, hne, foldl_max_range n]
    simp [workIndices, h]

/-- Filtering a concatenation of per-item traces gives nothing when no
item trace contains a matching event. -/
theorem filter_foldr_nil (p : Ev → Bool) (f : ℕ → List Ev) (l : List ℕ)
    (h : ∀ i ∈ l, (f i).filter p = []) :
    (l.foldr (fun i acc => f i ++ acc) []).filter p = [] := by
  induction l with
  | nil => rfl
  | cons x xs ih =>
    simp only [List.foldr_cons, List.filter_append]
    rw [h x (List.mem_cons_self x xs), ih (fun i hi => h i (List.mem_cons_of_mem x hi))]
    rfl

/-- A gee-variant worker invoked on an item whose artifact exists emits
no fetch and no write event, whatever the composite-definition oracle
says. -/
theorem download_images_exists_quiet (c : Cfg) (epsg : ℤ) (img : Bool)
    (i : ℕ) (att : ℕ → AttemptSpec) :
    (download_images c epsg img true i att).2.filter isFetch = [] ∧
    (download_images c epsg img true i att).2.filter isWrite = [] := by
  cases img <;> exact ⟨rfl, rfl⟩

/-- C4: a second run with unchanged configuration, after a first run in
which every work item produced its artifact and with no validator
deletion in between, performs zero fetches: the download.py variant
enumerates no work item at all (empty trace), and the
gee_embedding_download.py variant requests no download URL, performs no
HTTP GET and writes no file. -/
theorem second_run_idempotent (c : Cfg) (size : ℕ) (existing : List ℕ)
    (cent : ℕ → ℚ × ℚ) (fs imgOk : ℕ → Bool) (att : ℕ → ℕ → AttemptSpec)
    (epsg : ℤ)
    (hex : existing = List.range size) (hfs : ∀ i, fs i = true) :
    (runChunkDl c existing size cent fs imgOk att).2 = [] ∧
    (runChunkGee c epsg size fs imgOk att).2.filter isFetch = [] ∧
    (runChunkGee c epsg size fs imgOk att).2.filter isWrite = [] := by
  refine ⟨?_, ?_, ?_⟩
  · simp [runChunkDl, hex, workIndices_full]
  · exact filter_foldr_nil _ _ _ (fun i _ => by
      rw [hfs i]; exact (download_images_exists_quiet c epsg (imgOk i) i (att i)).1)
  · exact filter_foldr_nil _ _ _ (fun i _ => by
      rw [hfs i]; exact (download_images_exists_quiet c epsg (imgOk i) i (att i)).2)

/-- Witness for second_run_idempotent: a two-tile chunk whose two
artifacts exist yields an empty download.py trace and a fetch-free
gee trace. -/
theorem second_run_idempotent_witness :
    (List.range 2 = List.range 2 ∧ ∀ i : ℕ, (fun _ : ℕ => true) i = true) ∧
    (runChunkDl c0 (List.range 2) 2 (fun _ => (10, 52)) (fun _ => true)
      (fun _ => true) (fun _ => attAllOk)).2 = [] ∧
    (runChunkGee c0 32632 2 (fun _ => true) (fun _ => true)
      (fun _ => attAllOk)).2.filter isFetch = [] :=
  ⟨⟨rfl, fun _ => rfl⟩,
   (second_run_idempotent c0 2 (List.range 2) (fun _ => (10, 52))
     (fun _ => true) (fun _ => true) (fun _ => attAllOk) 32632 rfl
     (fun _ => rfl)).1,
   (second_run_idempotent c0 2 (List.range 2) (fun _ => (10, 52))
     (fun _ => true) (fun _ => true) (fun _ => attAllOk) 32632 rfl
     (fun _ => rfl)).2.1⟩

/-- The starting accumulator never exceeds a fold of max. -/
theorem le_foldl_max_init (l : List ℕ) : ∀ a : ℕ, a ≤ l.foldl max a := by
  induction l with
  | nil => intro a; exact Nat.le_refl a
  | cons x xs ih =>
    intro a
    exact Nat.le_trans (Nat.le_max_left a x) (ih (max a x))

/-- Every member of a list is bounded by a fold of max over it. -/
theorem mem_le_foldl_max (l : List ℕ) : ∀ (a x : ℕ), x ∈ l → x ≤ l.foldl max a := by
  induction l with
  | nil => intro a x hx; cases hx
  | cons y ys ih =>
    intro a x hx
    rcases List.mem_cons.mp hx with h | h
    · subst h
      exact Nat.le_trans (Nat.le_max_right a x) (le_foldl_max_init ys (max a x))
    · exact ih (max a y) x h

/-- Membership in the work-item index list. -/
theorem mem_workIndices (existing : List ℕ) (size i : ℕ) :
    i ∈ workIndices existing size ↔ start_index existing ≤ i ∧ i < size := by
  simp only [workIndices, List.mem_range']
  constructor
  · rintro ⟨j, hj, rfl⟩
    omega
  · intro h
    exact ⟨i - start_index existing, by omega, by omega⟩

/-- C5: under index-resume, with parsed artifact indices exactly 0..9 in
a chunk of 20 tiles, the rerun enumerates exactly the indices 10..19;
in general, with a nonempty set of parsed indices, enumeration starts
at max(existing) + 1, an index is enumerated exactly when it lies
between that start and the chunk size, and every index at most the
maximum (in particular every existing index) is skipped. -/
theorem index_resume_spec (existing : List ℕ) (size : ℕ)
    (hne : existing ≠ []) :
    workIndices (List.range 10) 20 = List.range' 10 10 ∧
    start_index existing = existing.foldl max 0 + 1 ∧
    (∀ i, i ∈ workIndices existing size ↔
        existing.foldl max 0 + 1 ≤ i ∧ i < size) ∧
    (∀ x ∈ existing, x ∉ workIndices existing size) := by
  have hemp : existing.isEmpty = false := by
    cases existing with
    | nil => exact absurd rfl hne
    | cons y ys => rfl
  have hstart : start_index existing = existing.foldl max 0 + 1 := by
    simp [start_index, hemp]
  refine ⟨by decide, hstart, ?_, ?_⟩
  · intro i
    rw [mem_workIndices, hstart]
  · intro x hx hmem
    rw [mem_workIndices, hstart] at hmem
    have hle : x ≤ existing.foldl max 0 := mem_le_foldl_max existing 0 x hx
    omega

/-- Witness for index_resume_spec: with artifacts 0..9 in a 20-tile
chunk, the enumerated work items are exactly the indices 10..19. -/
theorem index_resume_spec_witness :
    (List.range 10 ≠ ([] : List ℕ)) ∧
    workIndices (List.range 10) 20 = List.range' 10 10 ∧
    (10 ∈ workIndices (List.range 10) 20 ∧ 9 ∉ workIndices (List.range 10) 20) :=
  ⟨by decide,
   (index_resume_spec (List.range 10) 20 (by decide)).1,
   by
    have h := (index_resume_spec (List.range 10) 20 (by decide)).2.2
    refine ⟨(h.1 10).mpr ⟨by decide, by decide⟩, h.2 9 (by decide)⟩⟩

/-- C6 counterexample: when the band-description tagging of attempt 0
fails after the bytes were successfully written, the retry loop runs
again and writes the artifact path a second time, overwriting the
previously written artifact; so an artifact can be overwritten after a
successful write, beyond the one-time tagging. -/
theorem artifact_overwritten_on_tag_failure :
    ((worker_body c0 10 52 false true attTagFailOnce 1).2.filter
      isWriteFile).length = 2 := rfl

/-- With tagging and manifest steps that always succeed, an attempt
either fails before any write (only URL and GET events) or succeeds
with exactly one write immediately followed by the tagging. -/
theorem attemptRun_writeOrTag (i : ℕ) (outp dir : FPath) (a : AttemptSpec)
    (ht : a.tagOk = true) (hm : a.manifestOk = true) :
    ((attemptRun i outp dir a).1 = false ∧
      (attemptRun i outp dir a).2.filter isWriteOrTag = []) ∨
    ((attemptRun i outp dir a).1 = true ∧
      (attemptRun i outp dir a).2.filter isWriteOrTag =
        [Ev.writeFile outp, Ev.tagBands outp]) := by
  rcases a with ⟨u, h, t, m⟩
  simp only at ht hm
  subst ht hm
  rcases Nat.eq_zero_or_pos i with hi | hi
  · subst hi
    cases u <;> cases h <;>
      simp [attemptRun, isWriteOrTag]
  · have hi0 : i ≠ 0 := Nat.pos_iff_ne_zero.mp hi
    cases u <;> cases h <;>
      simp [attemptRun, isWriteOrTag, hi0]

/-- With tagging and manifest steps that always succeed, the whole
retry loop writes the artifact at most once: its trace, restricted to
writes of and tags on the artifact path, is empty or exactly one write
immediately followed by one tag. -/
theorem retryLoop_write_once (maxR : ℕ) (baseW : ℚ) (i : ℕ)
    (outp dir : FPath) (att : ℕ → AttemptSpec)
    (hok : ∀ k, (att k).tagOk = true ∧ (att k).manifestOk = true) :
    ∀ n start,
      (retryLoop maxR baseW i outp dir att start n).2.filter isWriteOrTag = [] ∨
      (retryLoop maxR baseW i outp dir att start n).2.filter isWriteOrTag =
        [Ev.writeFile outp, Ev.tagBands outp] := by
  intro n
  induction n with
  | zero =>
    intro start
    left
    rfl
  | succ n ih =>
    intro start
    rcases attemptRun_writeOrTag i outp dir (att start) (hok start).1
      (hok start).2 with ⟨hf, hev⟩ | ⟨hs, hev⟩
    · have := ih (start + 1)
      simp only [retryLoop, hf, if_false, Bool.false_eq_true,
        List.filter_append, hev]
      rcases this with h | h <;> simp [h, isWriteOrTag]
    · simp only [retryLoop, hs, if_true]
      right
      exact hev

/-- C6 amended: a worker whose deterministic output path already exists
performs no fetch and no write (the download.py variant returns None
with an empty trace, the gee variant returns the path with an empty
trace); and as long as the tagging and manifest steps never fail, the
artifact is written at most once, the write immediately followed by the
one-time band-description tagging. When tagging fails after a
successful byte write, however, the retry loop overwrites the artifact
(see the counterexample). -/
theorem artifact_write_lifecycle (c : Cfg) (lon lat : ℚ) (img : Bool)
    (att : ℕ → AttemptSpec) (i : ℕ) (epsg : ℤ)
    (hok : ∀ k, (att k).tagOk = true ∧ (att k).manifestOk = true) :
    (∀ img2 att2 i2, worker_body c lon lat true img2 att2 i2 = (none, [])) ∧
    (∀ att2 i2, download_images c epsg true true i2 att2 =
      (some (artifact_path c epsg i2), [])) ∧
    ((worker_body c lon lat false img att i).2.filter isWriteOrTag = [] ∨
     (worker_body c lon lat false img att i).2.filter isWriteOrTag =
       [Ev.writeFile (artifact_path c (epsg_code lon lat) i),
        Ev.tagBands (artifact_path c (epsg_code lon lat) i)]) := by
  refine ⟨fun img2 att2 i2 => rfl, fun att2 i2 => rfl, ?_⟩
  cases img
  · left
    rfl
  · exact retryLoop_write_once c.maxRetries c.baseWait i
      (artifact_path c (epsg_code lon lat) i) (out_dir c) att hok
      c.maxRetries 0

/-- Witness for artifact_write_lifecycle: with the all-successful
attempt oracle the skip behavior and the single write-then-tag trace
hold at the sample configuration. -/
theorem artifact_write_lifecycle_witness :
    (∀ k, (attAllOk k).tagOk = true ∧ (attAllOk k).manifestOk = true) ∧
    worker_body c0 10 52 true true attAllOk 1 = (none, []) ∧
    ((worker_body c0 10 52 false true attAllOk 1).2.filter isWriteOrTag = [] ∨
     (worker_body c0 10 52 false true attAllOk 1).2.filter isWriteOrTag =
       [Ev.writeFile (artifact_path c0 (epsg_code 10 52) 1),
        Ev.tagBands (artifact_path c0 (epsg_code 10 52) 1)]) :=
  ⟨fun _ => ⟨rfl, rfl⟩,
   (artifact_write_lifecycle c0 10 52 true attAllOk 1 32632
     (fun _ => ⟨rfl, rfl⟩)).1 true attAllOk 1,
   (artifact_write_lifecycle c0 10 52 true attAllOk 1 32632
     (fun _ => ⟨rfl, rfl⟩)).2.2⟩

/-- A file is marked by validate_file exactly when it is unreadable or
its band count differs from the expected one. -/
theorem validate_file_marks (f : FSFile) (expected : ℕ) :
    validate_file f expected = true ↔ f.cnt ≠ some expected := by
  rcases f with ⟨nm, cnt⟩
  cases cnt <;> simp [validate_file]

/-- C7: one validator pass over a chunk directory, with expected band
count 1 + number of bands of the chunk, deletes exactly the .tif files
that are unreadable or whose band count differs from the expected
count; every correctly shaped .tif file and every non-.tif file remains
in the directory, and the pass only removes files, so the resulting
directory is a subset of the original (no new data is written). -/
theorem validator_correct (bands : List String) (dir : List FSFile) :
    (∀ f, f ∈ deleted_files bands dir ↔
        f ∈ dir ∧ ends_with f.name ".tif" = true ∧
          f.cnt ≠ some (1 + bands.length)) ∧
    (∀ f, f ∈ remaining_files bands dir ↔
        f ∈ dir ∧ (ends_with f.name ".tif" = true →
          f.cnt = some (1 + bands.length))) ∧
    remaining_files bands dir ⊆ dir := by
  refine ⟨?_, ?_, fun x hx => List.mem_of_mem_filter hx⟩
  · intro f
    simp only [deleted_files, List.mem_filter, validate_file_marks]
    constructor
    · rintro ⟨⟨h1, h2⟩, h3⟩
      exact ⟨h1, h2, h3⟩
    · rintro ⟨h1, h2, h3⟩
      exact ⟨⟨h1, h2⟩, h3⟩
  · intro f
    have hvf : validate_file f (EXPECTED_LABEL_BANDS + bands.length) = false ↔
        f.cnt = some (1 + bands.length) := by
      constructor
      · intro h
        by_contra hc
        have hc2 : f.cnt ≠ some (EXPECTED_LABEL_BANDS + bands.length) := hc
        rw [(validate_file_marks f _).mpr hc2] at h
        cases h
      · intro h
        cases hv : validate_file f (EXPECTED_LABEL_BANDS + bands.length)
        · rfl
        · exact absurd h ((validate_file_marks f _).mp hv)
    simp only [remaining_files, List.mem_filter, Bool.not_eq_true']
    constructor
    · rintro ⟨hmem, hb⟩
      refine ⟨hmem, fun hend => ?_⟩
      rw [hend, Bool.true_and] at hb
      exact hvf.mp hb
    · rintro ⟨hmem, himp⟩
      refine ⟨hmem, ?_⟩
      cases hend : ends_with f.name ".tif" with
      | false => rw [Bool.false_and]
      | true => rw [Bool.true_and]; exact hvf.mpr (himp hend)

/-- Witness for validator_correct on a sample directory: the .tif file
with the wrong band count and the unreadable .tif file are deleted, the
correctly shaped .tif file and the manifest sidecar remain. -/
theorem validator_correct_witness :
    badFile ∈ deleted_files bands0 dir0 ∧
    unreadableFile ∈ deleted_files bands0 dir0 ∧
    goodFile ∈ remaining_files bands0 dir0 ∧
    manifestFile ∈ remaining_files bands0 dir0 :=
  ⟨((validator_correct bands0 dir0).1 badFile).mpr (by decide),
   ((validator_correct bands0 dir0).1 unreadableFile).mpr (by decide),
   ((validator_correct bands0 dir0).2.1 goodFile).mpr (by decide),
   ((validator_correct bands0 dir0).2.1 manifestFile).mpr (by decide)⟩

/-- C9 counterexample: in a two-tile chunk where every attempt of tile
0 fails at the HTTP GET while tile 1 succeeds, both tiles are processed
and tile 1 completes with an artifact, yet the manifest is written zero
times, not once. -/
theorem manifest_skipped_when_tile0_fails :
    ((runChunkDl c0 [] 2 (fun _ => (10, 52)) (fun _ => false)
      (fun _ => true) attTileZeroFails).2.filter isManifest).length = 0 ∧
    (runChunkDl c0 [] 2 (fun _ => (10, 52)) (fun _ => false)
      (fun _ => true) attTileZeroFails).1.map Option.isSome =
      [false, true] := ⟨rfl, rfl⟩

/-- An attempt of a tile with nonzero index never writes the
manifest. -/
theorem attemptRun_manifest_ne_zero (i : ℕ) (hi : i ≠ 0) (outp dir : FPath)
    (a : AttemptSpec) :
    (attemptRun i outp dir a).2.filter isManifest = [] := by
  rcases a with ⟨u, h, t, m⟩
  cases u <;> cases h <;> cases t <;> cases m <;>
    simp [attemptRun, isManifest, hi]

/-- An attempt failing at the URL request or the HTTP GET neither
succeeds nor reaches the manifest write. -/
theorem attemptRun_manifest_fail_early (i : ℕ) (outp dir : FPath)
    (a : AttemptSpec) (hf : (a.urlOk && a.httpOk) = false) :
    (attemptRun i outp dir a).1 = false ∧
    (attemptRun i outp dir a).2.filter isManifest = [] := by
  rcases a with ⟨u, h, t, m⟩
  cases u <;> cases h <;> simp_all [attemptRun, isManifest]

/-- A fully successful attempt of tile 0 emits exactly the five step
events ending with the manifest write. -/
theorem attemptRun_zero_success (outp dir : FPath) (a : AttemptSpec)
    (hu : a.urlOk = true) (hh : a.httpOk = true) (ht : a.tagOk = true)
    (hm : a.manifestOk = true) :
    attemptRun 0 outp dir a =
      (true, [Ev.getUrl, Ev.httpGet, Ev.writeFile outp, Ev.tagBands outp,
              Ev.writeManifest dir]) := by
  rcases a with ⟨u, h, t, m⟩
  simp_all [attemptRun]

/-- The retry loop of a tile with nonzero index never writes the
manifest. -/
theorem retryLoop_manifest_ne_zero (maxR : ℕ) (baseW : ℚ) (i : ℕ)
    (hi : i ≠ 0) (outp dir : FPath) (att : ℕ → AttemptSpec) :
    ∀ n start,
      (retryLoop maxR baseW i outp dir att start n).2.filter isManifest = [] := by
  intro n
  induction n with
  | zero => intro start; rfl
  | succ n ih =>
    intro start
    cases ha : (attemptRun i outp dir (att start)).1 with
    | true =>
      simp only [retryLoop, ha, if_true]
      exact attemptRun_manifest_ne_zero i hi outp dir (att start)
    | false =>
      simp only [retryLoop, ha, Bool.false_eq_true, if_false,
        List.filter_append]
      rw [attemptRun_manifest_ne_zero i hi outp dir (att start)]
      simp [isManifest, ih (start + 1)]

/-- With tagging and manifest steps that always succeed, the retry loop
of tile 0 writes the manifest exactly once if some attempt within the
budget gets through the URL request and the HTTP GET, and zero times
otherwise. -/
theorem retryLoop_manifest_count (maxR : ℕ) (baseW : ℚ) (outp dir : FPath)
    (att : ℕ → AttemptSpec)
    (hok : ∀ k, (att k).tagOk = true ∧ (att k).manifestOk = true) :
    ∀ n start,
      ((retryLoop maxR baseW 0 outp dir att start n).2.filter isManifest).length =
        if (List.range' start n).any (fun k => (att k).urlOk && (att k).httpOk)
        then 1 else 0 := by
  intro n
  induction n with
  | zero => intro start; simp [retryLoop, isManifest]
  | succ n ih =>
    intro start
    cases hk : ((att start).urlOk && (att start).httpOk) with
    | true =>
      have hu := Bool.and_eq_true_iff.mp hk
      have hsucc := attemptRun_zero_success outp dir (att start) hu.1 hu.2
        (hok start).1 (hok start).2
      simp only [retryLoop, hsucc]
      simp [isManifest, List.range'_succ, hk]
    | false =>
      have hfe := attemptRun_manifest_fail_early 0 outp dir (att start) hk
      simp only [retryLoop, hfe.1, Bool.false_eq_true, if_false,
        List.filter_append]
      rw [hfe.2]
      have hfilter : List.filter isManifest
          (Ev.warn (start + 1) maxR :: Ev.sleepFor (baseW * 2 ^ start) ::
            (retryLoop maxR baseW 0 outp dir att (start + 1) n).2) =
          List.filter isManifest
            (retryLoop maxR baseW 0 outp dir att (start + 1) n).2 := rfl
      rw [List.nil_append, hfilter, ih (start + 1), List.range'_succ,
        List.any_cons, hk, Bool.false_or]

/-- The download.py worker on a tile with nonzero index never writes
the manifest, whatever its oracles say. -/
theorem worker_body_manifest_ne_zero (c : Cfg) (lon lat : ℚ) (ex img : Bool)
    (att : ℕ → AttemptSpec) (i : ℕ) (hi : i ≠ 0) :
    (worker_body c lon lat ex img att i).2.filter isManifest = [] := by
  cases ex
  · cases img
    · rfl
    · exact retryLoop_manifest_ne_zero c.maxRetries c.baseWait i hi
        (artifact_path c (epsg_code lon lat) i) (out_dir c) att c.maxRetries 0
  · rfl

/-- C9 amended: the manifest is keyed to tile index 0, not to the first
tile processed: only a worker running tile index 0 can write it; with
tagging and manifest steps that never fail, the full retry budget of
tile 0 writes it exactly once if some attempt survives the URL request
and the HTTP GET and zero times otherwise (so a run in which tile 0
fails, or in which index-resume starts past 0, writes no manifest at
all). -/
theorem manifest_write_semantics (maxR : ℕ) (baseW : ℚ) (outp dir : FPath)
    (att : ℕ → AttemptSpec)
    (hok : ∀ k, (att k).tagOk = true ∧ (att k).manifestOk = true) :
    (∀ (c : Cfg) (lon lat : ℚ) (ex img : Bool) (att2 : ℕ → AttemptSpec)
        (i : ℕ), i ≠ 0 →
      (worker_body c lon lat ex img att2 i).2.filter isManifest = []) ∧
    (((retryLoop maxR baseW 0 outp dir att 0 maxR).2.filter isManifest).length =
      if (List.range maxR).any (fun k => (att k).urlOk && (att k).httpOk)
      then 1 else 0) ∧
    (∀ (c : Cfg) (existing : List ℕ) (size : ℕ) (cent : ℕ → ℚ × ℚ)
        (fs imgOk : ℕ → Bool) (att2 : ℕ → ℕ → AttemptSpec),
      0 ∉ workIndices existing size →
      (runChunkDl c existing size cent fs imgOk att2).2.filter isManifest = []) := by
  refine ⟨fun c lon lat ex img att2 i hi =>
    worker_body_manifest_ne_zero c lon lat ex img att2 i hi, ?_, ?_⟩
  · rw [List.range_eq_range']
    exact retryLoop_manifest_count maxR baseW outp dir att hok maxR 0
  · intro c existing size cent fs imgOk att2 h0
    exact filter_foldr_nil _ _ _ (fun i hi =>
      worker_body_manifest_ne_zero c (cent i).1 (cent i).2 (fs i) (imgOk i)
        (att2 i) i (fun he => h0 (he ▸ hi)))

/-- Witness for manifest_write_semantics: with the all-successful
oracle the full retry budget of tile 0 writes the manifest exactly
once. -/
theorem manifest_write_semantics_witness :
    (∀ k, (attAllOk k).tagOk = true ∧ (attAllOk k).manifestOk = true) ∧
    ((retryLoop 5 2 0 "p" "d" attAllOk 0 5).2.filter isManifest).length =
      (if (List.range 5).any (fun k => (attAllOk k).urlOk && (attAllOk k).httpOk)
       then 1 else 0) ∧
    ((retryLoop 5 2 0 "p" "d" attAllOk 0 5).2.filter isManifest).length = 1 :=
  ⟨fun _ => ⟨rfl, rfl⟩,
   (manifest_write_semantics 5 2 "p" "d" attAllOk (fun _ => ⟨rfl, rfl⟩)).2.1,
   by
    rw [(manifest_write_semantics 5 2 "p" "d" attAllOk (fun _ => ⟨rfl, rfl⟩)).2.1]
    rfl⟩

/-- Inversion for the provisioning result: a recorded zone comes from
the zone list, its area query succeeded with a nonzero area, and its
EPSG code is the zone-level resolution. -/
theorem provision_mem (south : Bool) (area : ℤ → Except String ℚ)
    (aExists : ℤ → Bool) :
    ∀ (zones : List ℤ) (z e : ℤ),
      (z, e) ∈ (provision south area aExists zones).1 →
      z ∈ zones ∧ (∃ a : ℚ, area z = Except.ok a ∧ a ≠ 0) ∧
        e = epsg_of_zone z south := by
  intro zones
  induction zones with
  | nil => intro z e h; cases h
  | cons y ys ih =>
    intro z e h
    simp only [provision] at h
    rcases harea : area y with msg | a
    · simp only [harea] at h
      have h2 := ih z e h
      exact ⟨List.mem_cons_of_mem y h2.1, h2.2⟩
    · simp only [harea] at h
      by_cases ha : a = 0
      · rw [if_pos ha] at h
        have h2 := ih z e h
        exact ⟨List.mem_cons_of_mem y h2.1, h2.2⟩
      · rw [if_neg ha] at h
        rcases List.mem_cons.mp h with h1 | h1
        · have hz : z = y := congrArg Prod.fst h1
          have he : e = epsg_of_zone y south := by
            have := congrArg Prod.snd h1
            exact this
          subst hz
          exact ⟨List.mem_cons_self z ys, ⟨a, harea, ha⟩, he⟩
        · have h2 := ih z e h1
          exact ⟨List.mem_cons_of_mem y h2.1, h2.2⟩

/-- Inversion for the provisioning trace: an export is started only for
a zone of the list whose area query succeeded with a nonzero area and
whose asset does not already exist. -/
theorem provision_export_mem (south : Bool) (area : ℤ → Except String ℚ)
    (aExists : ℤ → Bool) :
    ∀ (zones : List ℤ) (z : ℤ),
      ZEv.exportStart z ∈ (provision south area aExists zones).2 →
      z ∈ zones ∧ (∃ a : ℚ, area z = Except.ok a ∧ a ≠ 0) ∧
        aExists z = false := by
  intro zones
  induction zones with
  | nil => intro z h; cases h
  | cons y ys ih =>
    intro z h
    simp only [provision] at h
    rcases harea : area y with msg | a
    · simp only [harea] at h
      rcases List.mem_cons.mp h with h1 | h1
      · cases h1
      · have h2 := ih z h1
        exact ⟨List.mem_cons_of_mem y h2.1, h2.2⟩
    · simp only [harea] at h
      by_cases ha : a = 0
      · rw [if_pos ha] at h
        have h2 := ih z h
        exact ⟨List.mem_cons_of_mem y h2.1, h2.2⟩
      · rw [if_neg ha] at h
        rcases List.mem_cons.mp h with h1 | h1
        · rcases hex : aExists y with _ | _
          · rw [hex] at h1
            simp only [Bool.false_eq_true, if_false] at h1
            cases h1
            exact ⟨List.mem_cons_self y ys, ⟨a, harea, ha⟩, hex⟩
          · rw [hex] at h1
            simp only [if_true] at h1
            cases h1
        · have h2 := ih z h1
          exact ⟨List.mem_cons_of_mem y h2.1, h2.2⟩

/-- A zone of the list whose area query succeeds with a nonzero area is
recorded in the provisioning result. -/
theorem provision_complete (south : Bool) (area : ℤ → Except String ℚ)
    (aExists : ℤ → Bool) :
    ∀ (zones : List ℤ) (z : ℤ) (a : ℚ), z ∈ zones →
      area z = Except.ok a → a ≠ 0 →
      z ∈ (provision south area aExists zones).1.map Prod.fst := by
  intro zones
  induction zones with
  | nil => intro z a h; cases h
  | cons y ys ih =>
    intro z a hz harea ha
    rcases List.mem_cons.mp hz with h1 | h1
    · subst h1
      simp only [provision, harea, if_neg ha]
      exact List.mem_cons_self z _
    · have h2 := ih z a h1 harea ha
      simp only [provision]
      rcases hay : area y with msg | b
      · simp only [hay]
        exact h2
      · simp only [hay]
        by_cases hb : b = 0
        · rw [if_pos hb]
          exact h2
        · rw [if_neg hb]
          simp only [List.map_cons]
          exact List.mem_cons_of_mem _ h2

/-- A zone of the list whose area query fails is logged as an area
error in the provisioning trace. -/
theorem provision_area_err (south : Bool) (area : ℤ → Except String ℚ)
    (aExists : ℤ → Bool) :
    ∀ (zones : List ℤ) (z : ℤ) (msg : String), z ∈ zones →
      area z = Except.error msg →
      ZEv.areaErr z ∈ (provision south area aExists zones).2 := by
  intro zones
  induction zones with
  | nil => intro z msg h; cases h
  | cons y ys ih =>
    intro z msg hz harea
    rcases List.mem_cons.mp hz with h1 | h1
    · subst h1
      simp only [provision, harea]
      exact List.mem_cons_self _ _
    · have h2 := ih z msg h1 harea
      simp only [provision]
      rcases hay : area y with m2 | b
      · simp only [hay]
        exact List.mem_cons_of_mem _ h2
      · simp only [hay]
        by_cases hb : b = 0
        · rw [if_pos hb]
          exact h2
        · rw [if_neg hb]
          exact List.mem_cons_of_mem _ h2

/-- C8: during zone provisioning, a zone whose intersection area is
zero is recorded with no tiles and no export is started for it; a zone
whose area computation fails is logged as an area error and skipped
while the remaining zones are still processed; and when no zone with
nonzero area is discovered the run aborts (export_zone_grids returns an
error after the fatal log) before any zone info is produced. -/
theorem zone_provisioning_spec (south : Bool) (area : ℤ → Except String ℚ)
    (aExists : ℤ → Bool) (zones : List ℤ) :
    (∀ z ∈ zones, area z = Except.ok 0 →
      (∀ e, (z, e) ∉ (provision south area aExists zones).1) ∧
      ZEv.exportStart z ∉ (provision south area aExists zones).2) ∧
    (∀ z ∈ zones, ∀ msg, area z = Except.error msg →
      ZEv.areaErr z ∈ (provision south area aExists zones).2 ∧
      (∀ e, (z, e) ∉ (provision south area aExists zones).1)) ∧
    (∀ z ∈ zones, ∀ a : ℚ, area z = Except.ok a → a ≠ 0 →
      z ∈ (provision south area aExists zones).1.map Prod.fst) ∧
    ((∀ z ∈ zones, ∀ a : ℚ, area z = Except.ok a → a = 0) →
      (export_zone_grids south area aExists zones).1 = Except.error () ∧
      ZEv.fatal ∈ (export_zone_grids south area aExists zones).2) := by
  refine ⟨?_, ?_, ?_, ?_⟩
  · intro z hz h0
    constructor
    · intro e hmem
      rcases (provision_mem south area aExists zones z e hmem).2.1 with
        ⟨a, ha, hane⟩
      rw [h0] at ha
      injection ha with h2
      exact hane h2.symm
    · intro hmem
      rcases (provision_export_mem south area aExists zones z hmem).2.1 with
        ⟨a, ha, hane⟩
      rw [h0] at ha
      injection ha with h2
      exact hane h2.symm
  · intro z hz msg herr
    refine ⟨provision_area_err south area aExists zones z msg hz herr, ?_⟩
    intro e hmem
    rcases (provision_mem south area aExists zones z e hmem).2.1 with
      ⟨a, ha, hane⟩
    rw [herr] at ha
    cases ha
  · intro z hz a ha hane
    exact provision_complete south area aExists zones z a hz ha hane
  · intro hall
    have hempty : (provision south area aExists zones).1 = [] := by
      cases hp : (provision south area aExists zones).1 with
      | nil => rfl
      | cons x xs =>
        rcases x with ⟨x1, x2⟩
        have hx : (x1, x2) ∈ (provision south area aExists zones).1 := by
          rw [hp]
          exact List.mem_cons_self _ _
        have h2 := provision_mem south area aExists zones x1 x2 hx
        rcases h2.2.1 with ⟨a, ha, hane⟩
        exact absurd (hall x1 h2.1 a ha) hane
    constructor
    · simp [export_zone_grids, hempty]
    · simp [export_zone_grids, hempty]

/-- Witness for zone_provisioning_spec on the sample area oracle over
zones 31 (area query fails), 32 (zero area) and 33 (nonzero area): 31
is logged and skipped, no export starts for 32, 33 is recorded; and
with the always-failing oracle the run aborts fatally. -/
theorem zone_provisioning_spec_witness :
    (ZEv.areaErr 31 ∈ (provision false area0 (fun _ => false) [31, 32, 33]).2 ∧
     (∀ e, (31, e) ∉ (provision false area0 (fun _ => false) [31, 32, 33]).1)) ∧
    ZEv.exportStart 32 ∉ (provision false area0 (fun _ => false) [31, 32, 33]).2 ∧
    33 ∈ ((provision false area0 (fun _ => false) [31, 32, 33]).1.map Prod.fst) ∧
    (export_zone_grids false areaAllFail (fun _ => false) [31, 32, 33]).1 =
      Except.error () :=
  ⟨(zone_provisioning_spec false area0 (fun _ => false) [31, 32, 33]).2.1 31
      (by decide) "area failed" rfl,
   ((zone_provisioning_spec false area0 (fun _ => false) [31, 32, 33]).1 32
      (by decide) rfl).2,
   (zone_provisioning_spec false area0 (fun _ => false) [31, 32, 33]).2.2.1 33
      (by decide) 5 rfl (by norm_num),
   ((zone_provisioning_spec false areaAllFail (fun _ => false) [31, 32, 33]).2.2.2
      (fun z hz a ha => absurd ha (by simp [areaAllFail]))).1⟩
